import Mathlib

/-!
Shallow embedding of the event capacity & registration invariant engine of the
Community_event repository (`models.py`, `routes/event_routes.py`,
`routes/admin_routes.py`, `forms.py`), together with theorems settling the
frozen claims about it.

Datetimes are modelled as `Nat` timestamps, database integers as `Int` where
the column can go negative (`Event.capacity` has no range check) and as `Nat`
for identifiers, and the `event_registrations` table as a `List` of rows.
-/

namespace CommunityEvent

/-- A row of the `event_registrations` table (`models.py`, `EventRegistration`):
primary key `id`, foreign keys `user_id` and `event_id`, and a free-form
`status` string (`registered`, `cancelled`, `attended`). -/
structure Registration where
  id : Nat
  userId : Nat
  eventId : Nat
  status : String
deriving Repr, DecidableEq

/-- The fields of an `events` row that the registration rule engine reads
(`models.py`, `Event`): `capacity` (an SQL `Integer`, no sign restriction at
the storage layer), `status` string, optional `registration_deadline`, and the
creator's foreign key. -/
structure Event where
  id : Nat
  capacity : Int
  status : String
  registrationDeadline : Option Nat
  creatorId : Nat
deriving Repr, DecidableEq

/-- The rows of `event_registrations` belonging to one event: the
`Event.registrations` relationship of `models.py`. -/
def registrationsOf (rows : List Registration) (eid : Nat) : List Registration :=
  rows.filter (fun r => r.eventId == eid)

/-- `self.registrations.count()` of `models.py`: the number of registration
rows of the event, with no filter on the row's `status`. -/
def registeredCount (rows : List Registration) (eid : Nat) : Nat :=
  (registrationsOf rows eid).length

/-- `Event.is_registration_open` (`models.py` lines 166-171): when a deadline
is set, `now < deadline and status == 'published'`; otherwise
`status == 'published'`. -/
def is_registration_open (e : Event) (now : Nat) : Bool :=
  match e.registrationDeadline with
  | some d => decide (now < d) && (e.status == "published")
  | none => e.status == "published"

/-- `Event.available_spots` (`models.py` lines 173-177):
`max(0, self.capacity - self.registrations.count())`. -/
def available_spots (e : Event) (rows : List Registration) : Int :=
  max 0 (e.capacity - (registeredCount rows e.id : Int))

/-- `Event.is_full` (`models.py` lines 179-182): `available_spots <= 0`. -/
def is_full (e : Event) (rows : List Registration) : Bool :=
  available_spots e rows ≤ 0

/-- `Event.is_user_registered` (`models.py` lines 192-194):
`self.registrations.filter_by(user_id=user_id).first() is not None` — any row
of the event for that user counts, whatever its `status`. -/
def is_user_registered (e : Event) (rows : List Registration) (uid : Nat) : Bool :=
  (registrationsOf rows e.id).any (fun r => r.userId == uid)

/-- An INSERT into `event_registrations` under the storage-layer
`UniqueConstraint('user_id', 'event_id')` (`models.py` line 236): the insert
fails (IntegrityError) when a row with the same pair already exists. -/
def insertRegistration (rows : List Registration) (r : Registration) :
    Option (List Registration) :=
  if rows.any (fun q => q.userId == r.userId && q.eventId == r.eventId) then none
  else some (rows ++ [r])

/-- Outcome of `register_for_event`, one constructor per `flash` branch of the
handler (`routes/event_routes.py` lines 452-507). -/
inductive RegResult where
  | closed
  | full
  | duplicate
  | selfRegistration
  | dbError
  | success
deriving Repr, DecidableEq

/-- The handler `register_for_event` (`routes/event_routes.py` lines 452-507):
four guards checked in source order — registration window, fullness, duplicate,
creator — each returning with a message and no write; then the insert, whose
storage-constraint failure is caught and rolled back (`dbError`). `freshId` is
the primary key the store would assign to the new row. -/
def register_for_event (rows : List Registration) (e : Event) (uid : Nat)
    (now : Nat) (freshId : Nat) : RegResult × List Registration :=
  if !(is_registration_open e now) then (.closed, rows)
  else if is_full e rows then (.full, rows)
  else if is_user_registered e rows uid then (.duplicate, rows)
  else if e.creatorId == uid then (.selfRegistration, rows)
  else
    match insertRegistration rows ⟨freshId, uid, e.id, "registered"⟩ with
    | some rows2 => (.success, rows2)
    | none => (.dbError, rows)

/-- Outcome of `unregister_from_event` (`routes/event_routes.py` lines
511-546). -/
inductive UnregResult where
  | notRegistered
  | success
deriving Repr, DecidableEq

/-- The handler `unregister_from_event` (`routes/event_routes.py` lines
511-546): look up the caller's registration by `(user_id, event_id)`; when
absent, flash a message and change nothing; otherwise delete that row. -/
def unregister_from_event (rows : List Registration) (eid : Nat) (uid : Nat) :
    UnregResult × List Registration :=
  match rows.find? (fun r => r.userId == uid && r.eventId == eid) with
  | none => (.notRegistered, rows)
  | some r => (.success, rows.filter (fun q => q.id != r.id))

/-- Number of registration rows held by one `(user, event)` pair. -/
def pairCount (rows : List Registration) (uid : Nat) (eid : Nat) : Nat :=
  (rows.filter (fun r => r.userId == uid && r.eventId == eid)).length

/-- Helper: the row-level predicate of the storage constraint agrees with the
rule-engine duplicate check `is_user_registered`. -/
theorem any_pair_eq_registered (e : Event) (rows : List Registration) (uid : Nat) :
    rows.any (fun q => q.userId == uid && q.eventId == e.id) =
      is_user_registered e rows uid := by
  rw [Bool.eq_iff_iff]
  unfold is_user_registered registrationsOf
  simp only [List.any_eq_true, List.mem_filter, Bool.and_eq_true, beq_iff_eq]
  constructor
  · rintro ⟨q, hq, h1, h2⟩
    exact ⟨q, ⟨hq, h2⟩, h1⟩
  · rintro ⟨q, ⟨hq, h2⟩, h1⟩
    exact ⟨q, hq, h1, h2⟩

/-- Helper: when the duplicate check is clear, the constrained insert of the
fresh `registered` row succeeds and appends it. -/
theorem insertRegistration_of_not_registered (rows : List Registration) (e : Event)
    (uid freshId : Nat) (h : is_user_registered e rows uid = false) :
    insertRegistration rows ⟨freshId, uid, e.id, "registered"⟩ =
      some (rows ++ [⟨freshId, uid, e.id, "registered"⟩]) := by
  unfold insertRegistration
  rw [any_pair_eq_registered e rows uid, h]
  simp

/-- Helper: full characterization of `register_for_event` — which guard fires,
and the resulting store. -/
theorem register_for_event_spec (rows : List Registration) (e : Event)
    (uid now freshId : Nat) :
    (is_registration_open e now = false →
      register_for_event rows e uid now freshId = (.closed, rows)) ∧
    (is_registration_open e now = true → is_full e rows = true →
      register_for_event rows e uid now freshId = (.full, rows)) ∧
    (is_registration_open e now = true → is_full e rows = false →
      is_user_registered e rows uid = true →
      register_for_event rows e uid now freshId = (.duplicate, rows)) ∧
    (is_registration_open e now = true → is_full e rows = false →
      is_user_registered e rows uid = false → e.creatorId = uid →
      register_for_event rows e uid now freshId = (.selfRegistration, rows)) ∧
    (is_registration_open e now = true → is_full e rows = false →
      is_user_registered e rows uid = false → e.creatorId ≠ uid →
      register_for_event rows e uid now freshId =
        (.success, rows ++ [⟨freshId, uid, e.id, "registered"⟩])) := by
  refine ⟨?_, ?_, ?_, ?_, ?_⟩
  · intro hopen
    unfold register_for_event
    simp [hopen]
  · intro hopen hfull
    unfold register_for_event
    simp [hopen, hfull]
  · intro hopen hfull hdup
    unfold register_for_event
    simp [hopen, hfull, hdup]
  · intro hopen hfull hdup hcreator
    unfold register_for_event
    simp [hopen, hfull, hdup, hcreator]
  · intro hopen hfull hdup hcreator
    unfold register_for_event
    rw [insertRegistration_of_not_registered rows e uid freshId hdup]
    have hc : (e.creatorId == uid) = false := by
      simpa using hcreator
    simp [hopen, hfull, hdup, hc]

/-- C2: for every event with capacity `C` and `R` registration rows,
`available_spots = max(0, C − R)`, and `is_full` holds iff `available_spots`
is zero. -/
theorem availableSpots_max_and_isFull_iff_zero (e : Event) (rows : List Registration) :
    available_spots e rows = max 0 (e.capacity - (registeredCount rows e.id : Int)) ∧
      (is_full e rows = true ↔ available_spots e rows = 0) := by
  refine ⟨rfl, ?_⟩
  unfold is_full available_spots
  constructor
  · intro h
    have h' : max 0 (e.capacity - (registeredCount rows e.id : Int)) ≤ 0 := by
      simpa using h
    omega
  · intro h
    simp [h]

/-- C3: the admission check of `register_for_event` evaluates its four guards
in exactly the source order — registration window, fullness, duplicate,
creator — the first failing guard names the rejection and leaves the store
unchanged, and only when all four pass is exactly one new row with status
"registered" appended. -/
theorem register_admission_order (rows : List Registration) (e : Event)
    (uid now freshId : Nat) :
    ((register_for_event rows e uid now freshId).1 = .closed ↔
      is_registration_open e now = false) ∧
    ((register_for_event rows e uid now freshId).1 = .full ↔
      is_registration_open e now = true ∧ is_full e rows = true) ∧
    ((register_for_event rows e uid now freshId).1 = .duplicate ↔
      is_registration_open e now = true ∧ is_full e rows = false ∧
        is_user_registered e rows uid = true) ∧
    ((register_for_event rows e uid now freshId).1 = .selfRegistration ↔
      is_registration_open e now = true ∧ is_full e rows = false ∧
        is_user_registered e rows uid = false ∧ e.creatorId = uid) ∧
    ((register_for_event rows e uid now freshId).1 = .success ↔
      is_registration_open e now = true ∧ is_full e rows = false ∧
        is_user_registered e rows uid = false ∧ e.creatorId ≠ uid) ∧
    ((register_for_event rows e uid now freshId).1 ≠ .success →
      (register_for_event rows e uid now freshId).2 = rows) ∧
    ((register_for_event rows e uid now freshId).1 = .success →
      (register_for_event rows e uid now freshId).2 =
        rows ++ [⟨freshId, uid, e.id, "registered"⟩]) := by
  obtain ⟨h1, h2, h3, h4, h5⟩ := register_for_event_spec rows e uid now freshId
  by_cases hopen : is_registration_open e now = true
  · by_cases hfull : is_full e rows = true
    · rw [h2 hopen hfull]
      simp [hopen, hfull]
    · have hfull' : is_full e rows = false := by simpa using hfull
      by_cases hdup : is_user_registered e rows uid = true
      · rw [h3 hopen hfull' hdup]
        simp [hopen, hfull', hdup]
      · have hdup' : is_user_registered e rows uid = false := by simpa using hdup
        by_cases hcre : e.creatorId = uid
        · rw [h4 hopen hfull' hdup' hcre]
          simp [hopen, hfull', hdup', hcre]
        · rw [h5 hopen hfull' hdup' hcre]
          simp [hopen, hfull', hdup', hcre]
  · have hopen' : is_registration_open e now = false := by simpa using hopen
    rw [h1 hopen']
    simp [hopen']

/-- A concrete open, empty, non-full event for exercising the admission check. -/
def evC3 : Event := ⟨1, 5, "published", none, 1⟩

/-- Witness for C3: at a concrete registrable input every guard passes and the
single new `registered` row is appended. -/
theorem register_admission_order_witness :
    (register_for_event [] evC3 2 0 7).2 = [⟨7, 2, 1, "registered"⟩] :=
  (register_admission_order [] evC3 2 0 7).2.2.2.2.2.2 (by decide)

/-- C4: `is_registration_open` holds iff the event is published and either no
deadline is set or `now` is before it; and a draft event rejects every
registration attempt as closed, leaving the store unchanged, whatever its
capacity. -/
theorem registration_open_iff_and_draft_rejected (e : Event) (now : Nat) :
    (is_registration_open e now = true ↔
      (e.status = "published" ∧
        (e.registrationDeadline = none ∨
          ∃ d, e.registrationDeadline = some d ∧ now < d))) ∧
    (e.status = "draft" → ∀ rows uid freshId,
      register_for_event rows e uid now freshId = (.closed, rows)) := by
  constructor
  · unfold is_registration_open
    cases hdl : e.registrationDeadline with
    | none => simp [hdl]
    | some d =>
      simp [hdl]
      tauto
  · intro hdraft rows uid freshId
    have hopen : is_registration_open e now = false := by
      unfold is_registration_open
      cases e.registrationDeadline <;> simp [hdraft]
    exact (register_for_event_spec rows e uid now freshId).1 hopen

/-- A concrete draft event with ample capacity. -/
def evC4 : Event := ⟨2, 50, "draft", none, 1⟩

/-- Witness for C4: a concrete draft event rejects a registration attempt as
closed even with ample capacity. -/
theorem registration_open_iff_and_draft_rejected_witness :
    register_for_event [] evC4 7 0 1 = (.closed, []) :=
  (registration_open_iff_and_draft_rejected evC4 0).2 rfl [] 7 1

/-- C5: a registration attempt by the event's creator never succeeds and never
writes a row, whatever the event's status, capacity, fullness or deadline
state. -/
theorem creator_attempt_always_rejected (rows : List Registration) (e : Event)
    (now freshId : Nat) :
    (register_for_event rows e e.creatorId now freshId).1 ≠ RegResult.success ∧
      (register_for_event rows e e.creatorId now freshId).2 = rows := by
  obtain ⟨h1, h2, h3, h4, _⟩ := register_for_event_spec rows e e.creatorId now freshId
  by_cases hopen : is_registration_open e now = true
  · by_cases hfull : is_full e rows = true
    · rw [h2 hopen hfull]
      simp
    · have hfull' : is_full e rows = false := by simpa using hfull
      by_cases hdup : is_user_registered e rows e.creatorId = true
      · rw [h3 hopen hfull' hdup]
        simp
      · have hdup' : is_user_registered e rows e.creatorId = false := by
          simpa using hdup
        rw [h4 hopen hfull' hdup' rfl]
        simp
  · have hopen' : is_registration_open e now = false := by simpa using hopen
    rw [h1 hopen']
    simp

/-- A concrete open event whose creator is user 4. -/
def evC5 : Event := ⟨3, 10, "published", none, 4⟩

/-- Witness for C5: the creator of a concrete open, empty event is rejected
and no row is written. -/
theorem creator_attempt_always_rejected_witness :
    (register_for_event [] evC5 4 0 1).1 ≠ RegResult.success ∧
      (register_for_event [] evC5 4 0 1).2 = [] :=
  creator_attempt_always_rejected [] evC5 0 1

/-- C6: when no registration row for the pair exists, unregistration is a
no-op with a message: the result is `notRegistered`, no row is created or
deleted, and the event's registration count is unchanged. -/
theorem unregister_absent_is_noop (rows : List Registration) (eid uid : Nat)
    (h : ∀ r ∈ rows, ¬(r.userId = uid ∧ r.eventId = eid)) :
    unregister_from_event rows eid uid = (UnregResult.notRegistered, rows) ∧
      registeredCount (unregister_from_event rows eid uid).2 eid =
        registeredCount rows eid := by
  have hfind : rows.find? (fun r => r.userId == uid && r.eventId == eid) = none := by
    rw [List.find?_eq_none]
    intro r hr
    simpa using h r hr
  have hmain : unregister_from_event rows eid uid = (UnregResult.notRegistered, rows) := by
    unfold unregister_from_event
    rw [hfind]
  exact ⟨hmain, by rw [hmain]⟩

/-- Witness for C6: unregistering a user with no row, from a store holding one
row of a different user, changes nothing. -/
theorem unregister_absent_is_noop_witness :
    unregister_from_event [⟨1, 5, 9, "registered"⟩] 9 2 =
        (UnregResult.notRegistered, [⟨1, 5, 9, "registered"⟩]) ∧
      registeredCount (unregister_from_event [⟨1, 5, 9, "registered"⟩] 9 2).2 9 =
        registeredCount [⟨1, 5, 9, "registered"⟩] 9 :=
  unregister_absent_is_noop [⟨1, 5, 9, "registered"⟩] 9 2 (by decide)

/-- Helper: a row for the pair in the store trips the duplicate check,
whatever the row's status. -/
theorem registered_of_mem (e : Event) (rows : List Registration) (uid : Nat)
    (r : Registration) (hr : r ∈ rows) (h1 : r.eventId = e.id)
    (h2 : r.userId = uid) : is_user_registered e rows uid = true := by
  unfold is_user_registered registrationsOf
  rw [List.any_eq_true]
  exact ⟨r, List.mem_filter.mpr ⟨hr, by simp [h1]⟩, by simp [h2]⟩

/-- Helper: appending one row changes the count of exactly the pair it holds. -/
theorem pairCount_append_mk (rows : List Registration) (rid ru rev : Nat)
    (st : String) (u ev : Nat) :
    pairCount (rows ++ [⟨rid, ru, rev, st⟩]) u ev =
      pairCount rows u ev + (if ru = u ∧ rev = ev then 1 else 0) := by
  unfold pairCount
  rw [List.filter_append, List.length_append]
  by_cases h : ru = u ∧ rev = ev
  · rw [if_pos h]
    simp [h.1, h.2]
  · rw [if_neg h]
    simp only [List.filter_cons, List.filter_nil, Bool.and_eq_true, beq_iff_eq]
    rw [if_neg (by simpa using h)]
    rfl

/-- Helper: a clear duplicate check means the pair holds no row at all. -/
theorem pairCount_eq_zero_of_not_registered (e : Event) (rows : List Registration)
    (uid : Nat) (h : is_user_registered e rows uid = false) :
    pairCount rows uid e.id = 0 := by
  unfold pairCount
  rw [List.length_eq_zero, List.filter_eq_nil_iff]
  intro r hr hcontra
  obtain ⟨h1, h2⟩ : r.userId = uid ∧ r.eventId = e.id := by simpa using hcontra
  rw [registered_of_mem e rows uid r hr h2 h1] at h
  cases h

/-- A concrete published event with capacity 1, created by user 9. -/
def evC1 : Event := ⟨1, 1, "published", none, 9⟩

/-- The single registration row, held by user 2, on `evC1`. -/
def rowsC1 : List Registration := [⟨1, 2, 1, "registered"⟩]

/-- C1 counterexample: user 2 already holds a registration for `evC1`, yet the
second attempt is not rejected with the duplicate message — the fullness guard
precedes the duplicate guard and the held row fills the capacity-1 event. -/
theorem second_attempt_rejected_full_not_duplicate :
    is_user_registered evC1 rowsC1 2 = true ∧
      (register_for_event rowsC1 evC1 2 0 5).1 = RegResult.full ∧
      (register_for_event rowsC1 evC1 2 0 5).1 ≠ RegResult.duplicate := by decide

/-- C1 (amended): a second attempt by a user who already holds a registration
for the event never succeeds and writes no row, and is rejected with the
duplicate message whenever the window is open and the event is not full; the
storage-layer constraint independently rejects an insert for a pair that
already holds a row; and a store in which every pair holds at most one row
still does after any registration attempt. -/
theorem pair_unique_registration (rows : List Registration) (e : Event)
    (uid now freshId : Nat) :
    (is_user_registered e rows uid = true →
      (register_for_event rows e uid now freshId).1 ≠ RegResult.success ∧
        (register_for_event rows e uid now freshId).2 = rows) ∧
    (is_registration_open e now = true → is_full e rows = false →
      is_user_registered e rows uid = true →
      (register_for_event rows e uid now freshId).1 = RegResult.duplicate) ∧
    (∀ r : Registration,
      (∃ q ∈ rows, q.userId = r.userId ∧ q.eventId = r.eventId) →
      insertRegistration rows r = none) ∧
    (∀ u ev, pairCount rows u ev ≤ 1 →
      pairCount (register_for_event rows e uid now freshId).2 u ev ≤ 1) := by
  obtain ⟨h1, h2, h3, h4, h5⟩ := register_for_event_spec rows e uid now freshId
  refine ⟨?_, ?_, ?_, ?_⟩
  · intro hdup
    by_cases hopen : is_registration_open e now = true
    · by_cases hfull : is_full e rows = true
      · rw [h2 hopen hfull]
        simp
      · have hfull' : is_full e rows = false := by simpa using hfull
        rw [h3 hopen hfull' hdup]
        simp
    · have hopen' : is_registration_open e now = false := by simpa using hopen
      rw [h1 hopen']
      simp
  · intro hopen hfull hdup
    rw [h3 hopen hfull hdup]
  · rintro r ⟨q, hq, hqu, hqe⟩
    unfold insertRegistration
    rw [if_pos (List.any_eq_true.mpr ⟨q, hq, by simp [hqu, hqe]⟩)]
  · intro u ev hle
    by_cases hopen : is_registration_open e now = true
    · by_cases hfull : is_full e rows = true
      · rw [h2 hopen hfull]
        exact hle
      · have hfull' : is_full e rows = false := by simpa using hfull
        by_cases hdup : is_user_registered e rows uid = true
        · rw [h3 hopen hfull' hdup]
          exact hle
        · have hdup' : is_user_registered e rows uid = false := by simpa using hdup
          by_cases hcre : e.creatorId = uid
          · rw [h4 hopen hfull' hdup' hcre]
            exact hle
          · rw [h5 hopen hfull' hdup' hcre]
            rw [pairCount_append_mk]
            by_cases hp : uid = u ∧ e.id = ev
            · rw [if_pos hp]
              obtain ⟨hu, hev⟩ := hp
              subst hu
              subst hev
              have h0 := pairCount_eq_zero_of_not_registered e rows uid hdup'
              omega
            · rw [if_neg hp]
              omega
    · have hopen' : is_registration_open e now = false := by simpa using hopen
      rw [h1 hopen']
      exact hle

/-- A concrete published event with spare capacity, created by user 9. -/
def evC1w : Event := ⟨4, 10, "published", none, 9⟩

/-- Witness for C1: with the window open and spare capacity, the second
attempt by the holder of the one existing row is rejected as a duplicate. -/
theorem pair_unique_registration_witness :
    (register_for_event [⟨1, 2, 4, "registered"⟩] evC1w 2 0 5).1 =
      RegResult.duplicate :=
  (pair_unique_registration [⟨1, 2, 4, "registered"⟩] evC1w 2 0 5).2.1
    (by decide) (by decide) (by decide)

/-- A concrete published event with capacity 1, created by user 8. -/
def evC10 : Event := ⟨6, 1, "published", none, 8⟩

/-- The single, cancelled, registration row, held by user 2, on `evC10`. -/
def rowsC10 : List Registration := [⟨1, 2, 6, "cancelled"⟩]

/-- C10 counterexample: user 2's only row on `evC10` has status cancelled; it
trips the duplicate check and consumes the one spot, but precisely because it
fills the capacity-1 event the re-registration attempt is rejected as full,
not as a duplicate. -/
theorem cancelled_row_rejected_as_full_not_duplicate :
    is_user_registered evC10 rowsC10 2 = true ∧
      available_spots evC10 rowsC10 = 0 ∧
      (register_for_event rowsC10 evC10 2 0 5).1 = RegResult.full ∧
      (register_for_event rowsC10 evC10 2 0 5).1 ≠ RegResult.duplicate := by
  decide

/-- C10 (amended): the duplicate check `is_user_registered` is status-blind —
a row of any status for the pair trips it — and a row of any status counts
toward capacity; consequently a user whose only row has status cancelled is
rejected on re-registration, as a duplicate whenever the event is open and not
full. -/
theorem status_blind_duplicate_and_capacity (e : Event) (rows : List Registration)
    (uid now freshId : Nat) :
    ((∃ r ∈ rows, r.eventId = e.id ∧ r.userId = uid) →
      is_user_registered e rows uid = true) ∧
    (∀ (rid : Nat) (st : String),
      registeredCount (rows ++ [⟨rid, uid, e.id, st⟩]) e.id =
        registeredCount rows e.id + 1) ∧
    (is_registration_open e now = true → is_full e rows = false →
      (∃ r ∈ rows, r.eventId = e.id ∧ r.userId = uid ∧ r.status = "cancelled") →
      (register_for_event rows e uid now freshId).1 = RegResult.duplicate) := by
  refine ⟨?_, ?_, ?_⟩
  · rintro ⟨r, hr, h1, h2⟩
    exact registered_of_mem e rows uid r hr h1 h2
  · intro rid st
    unfold registeredCount registrationsOf
    rw [List.filter_append, List.length_append]
    simp
  · rintro hopen hfull ⟨r, hr, h1, h2, _⟩
    rw [(register_for_event_spec rows e uid now freshId).2.2.1 hopen hfull
      (registered_of_mem e rows uid r hr h1 h2)]

/-- A concrete published event with spare capacity, created by user 8. -/
def evC10w : Event := ⟨7, 10, "published", none, 8⟩

/-- Witness for C10: with spare capacity, the user whose only row is cancelled
is rejected as a duplicate on re-registration. -/
theorem status_blind_duplicate_and_capacity_witness :
    (register_for_event [⟨1, 2, 7, "cancelled"⟩] evC10w 2 0 5).1 =
      RegResult.duplicate :=
  (status_blind_duplicate_and_capacity evC10w [⟨1, 2, 7, "cancelled"⟩] 2 0 5).2.2
    (by decide) (by decide) ⟨⟨1, 2, 7, "cancelled"⟩, by decide, rfl, rfl, rfl⟩

/-- A row of the `users` table with the fields the admin routes read
(`models.py`, `User`). -/
structure UserRec where
  id : Nat
  role : String
deriving Repr, DecidableEq

/-- `User.is_admin` (`models.py` lines 87-89): `self.role == 'admin'`. -/
def is_admin (u : UserRec) : Bool := u.role == "admin"

/-- Deleting an Event (`routes/event_routes.py`, `delete_event`): the
`Event.registrations` relationship carries `cascade='all, delete-orphan'`
(`models.py` line 155), so every registration row of the event is deleted
with it. -/
def delete_event_cascade (rows : List Registration) (eid : Nat) :
    List Registration :=
  rows.filter (fun r => r.eventId != eid)

/-- Outcome of the admin `delete_user` handler, one constructor per exit
(`routes/admin_routes.py` lines 196-234). -/
inductive DelUserResult where
  | selfDelete
  | adminTarget
  | integrityError
  | success
deriving Repr, DecidableEq

/-- `delete_user` (`routes/admin_routes.py` lines 196-234): guards reject
deleting oneself and deleting an admin; then `db.session.delete(user)` is
flushed. Neither `User.registrations` (`models.py` line 59) nor
`User.events_created` (line 57) configures a delete cascade, so the ORM nulls
the dependent foreign keys `EventRegistration.user_id` and `Event.creator_id`
at flush; both columns are NOT NULL, so the flush raises whenever a dependent
row exists and the handler's except branch rolls the transaction back,
leaving the store unchanged. -/
def delete_user (users : List UserRec) (events : List Event)
    (rows : List Registration) (callerId : Nat) (target : UserRec) :
    DelUserResult × List UserRec × List Event × List Registration :=
  if target.id == callerId then (.selfDelete, users, events, rows)
  else if is_admin target then (.adminTarget, users, events, rows)
  else if rows.any (fun r => r.userId == target.id) ||
      events.any (fun ev => ev.creatorId == target.id) then
    (.integrityError, users, events, rows)
  else (.success, users.filter (fun u => u.id != target.id), events, rows)

/-- `promote_to_organizer` (`routes/admin_routes.py` lines 449-477): sets the
target's role to `organizer` and commits; unlike `demote_to_user` and
`delete_user`, no guard rejects an admin target. -/
def promote_to_organizer (users : List UserRec) (targetId : Nat) :
    List UserRec :=
  users.map (fun u => if u.id == targetId then { u with role := "organizer" } else u)

/-- The guard of `edit_user` (`routes/admin_routes.py` lines 154-157): editing
an admin account other than the caller's own is rejected. -/
def edit_user_allowed (target : UserRec) (callerId : Nat) : Bool :=
  !(is_admin target && target.id != callerId)

/-- The admin caller used in the C7 scenario. -/
def adminC7 : UserRec := ⟨1, "admin"⟩

/-- The non-admin user targeted for deletion in the C7 scenario. -/
def targetC7 : UserRec := ⟨2, "user"⟩

/-- The one registration row held by user 2 on event 3. -/
def rowsC7 : List Registration := [⟨1, 2, 3, "registered"⟩]

/-- C7: deleting an event does delete its registration rows (delete-orphan
cascade), but deleting a user who holds a registration row fails at flush with
an integrity error and is rolled back — the row referencing the user survives,
contrary to the claim and to the handler's own comment that the delete
cascades to registrations. -/
theorem delete_user_leaves_registration_rows :
    (delete_event_cascade rowsC7 3).all (fun r => r.eventId != 3) = true ∧
      delete_user [adminC7, targetC7] [] rowsC7 1 targetC7 =
        (DelUserResult.integrityError, [adminC7, targetC7], [], rowsC7) ∧
      rowsC7.any (fun r => r.userId == 2) = true := by decide

/-- The admin invoking the promote route in the C8 scenario. -/
def adminA : UserRec := ⟨1, "admin"⟩

/-- The admin targeted by the promote route in the C8 scenario. -/
def adminB : UserRec := ⟨2, "admin"⟩

/-- C8: `promote_to_organizer` carries no guard on admin targets, so admin 1
invoking it on admin 2 changes admin 2's role away from admin — contrary to
the claim, to the guards of `edit_user`, `delete_user` and `demote_to_user`,
and to the spec's rule that admin accounts cannot be demoted by another
admin. -/
theorem promote_route_demotes_admin :
    is_admin adminB = true ∧
      promote_to_organizer [adminA, adminB] 2 = [adminA, ⟨2, "organizer"⟩] ∧
      (promote_to_organizer [adminA, adminB] 2).any
        (fun u => u.id == 2 && is_admin u) = false := by decide

/-- The `capacity` field of `EventForm` and `AdminEventEditForm` (`forms.py`
lines 243-245 and 411-412): an IntegerField whose only validator is
DataRequired — which fails when the coerced data is missing or falsy, and an
integer is falsy exactly when it is zero; there is no NumberRange, hence no
sign check. `none` models a missing or unparsable input. -/
def capacity_field_validates (data : Option Int) : Bool :=
  match data with
  | none => false
  | some v => v != 0

/-- `create_event` and `edit_event` (`routes/event_routes.py` lines 284 and
393) store `form.capacity.data` unchanged once the form validates. -/
def create_event_capacity (data : Option Int) : Option Int :=
  if capacity_field_validates data then data else none

/-- C9 counterexample: capacity −1 is non-positive yet passes form validation
and is stored unchanged on the created event. -/
theorem negative_capacity_accepted :
    ((-1 : Int) ≤ 0) ∧ capacity_field_validates (some (-1)) = true ∧
      create_event_capacity (some (-1)) = some (-1) := by decide

/-- C9 (amended): validation rejects a missing or zero capacity — the required
check treats the integer 0 as empty — but enforces no positivity: every
nonzero capacity, negative included, passes validation and is stored
unchanged. -/
theorem capacity_validation_rejects_only_zero (c : Int) :
    capacity_field_validates none = false ∧
      capacity_field_validates (some 0) = false ∧
      (capacity_field_validates (some c) = true ↔ c ≠ 0) ∧
      (c ≠ 0 → create_event_capacity (some c) = some c) := by
  refine ⟨rfl, by decide, by simp [capacity_field_validates], ?_⟩
  intro hc
  unfold create_event_capacity capacity_field_validates
  simp [hc]

/-- Witness for C9: the nominal capacity 100 passes validation and is stored
unchanged. -/
theorem capacity_validation_rejects_only_zero_witness :
    create_event_capacity (some 100) = some 100 :=
  (capacity_validation_rejects_only_zero 100).2.2.2 (by decide)

end CommunityEvent
